import Mathlib

/-!
Verification of the OHCR discourse-coach dashboard frontend.

The repository ships two versions of the Dashboard React component (their
original file names are unknown; they are referred to below as part 000
and part 001) plus the App shell.  Part 001 is the complete
implementation: it has the falsy-sessionId early return, the staleness
guard (the `ignore` flag set by the effect cleanup), the fetch error
recovery, the 0.8 width floor and the full tooltip; part 000 is the older
variant, of which we embed the inline color lookup.

Modelling conventions: JavaScript numbers are rationals, JavaScript
strings are Lean strings, and an absent object field is an Option that is
none.  A present `ohcr` key holding a falsy value is modelled as
`some ""`.  A method call on an absent (undefined) value, such as
`u.t_start.toFixed(1)`, throws in JavaScript and is modelled as
`Except.error`.  The React useEffect fetch lifecycle is modelled as a
transition system over an explicit effect state.
-/

namespace OhcrCoach

/-- A raw utterance record as consumed by the Timeline components.  Any
field may be absent (`none`). -/
structure Utt where
  u_id : Option String := none
  t_start : Option ℚ := none
  t_end : Option ℚ := none
  ohcr : Option String := none
deriving DecidableEq

/-- JavaScript `x || 0` applied to a possibly absent numeric field: an
absent field gives 0, and a present value of 0 (the only falsy number we
model) also gives 0, which coincides with `Option.getD 0`. -/
def numOr0 (o : Option ℚ) : ℚ := o.getD 0

/-- JavaScript `u.ohcr || "?"`: an absent key or a present falsy value
(the empty string) falls back to the unknown code. -/
def jsCode (o : Option String) : String :=
  match o with
  | some s => if s = "" then "?" else s
  | none => "?"

/-- JavaScript `s.toUpperCase()`: each character uppercased (stated over
the character list of the string). -/
def jsToUpper (s : String) : String := String.mk (s.data.map Char.toUpper)

/-- ECMAScript `Number.prototype.toFixed` digit computation on the
absolute value: the integer n closest to q * 10, ties toward the larger
n, then the digits split around the decimal point. -/
def toFixed1Abs (q : ℚ) : String :=
  let n : ℕ := (round (q * 10)).toNat
  toString (n / 10) ++ "." ++ toString (n % 10)

/-- JavaScript `q.toFixed(1)`: a negative number is formatted as the
minus sign followed by the formatting of its absolute value. -/
def toFixed1 (q : ℚ) : String :=
  if q < 0 then "-" ++ toFixed1Abs (-q) else toFixed1Abs q

/-- Digit computation of `toFixed(0)` on the absolute value. -/
def toFixed0Abs (q : ℚ) : String := toString (round q).toNat

/-- JavaScript `q.toFixed(0)`. -/
def toFixed0 (q : ℚ) : String :=
  if q < 0 then "-" ++ toFixed0Abs (-q) else toFixed0Abs q

/-- A rendered timeline segment of part 001: the CSS class suffix of the
`timeline-segment--` class, the `left` and `width` style percentages and
the `title` tooltip text. -/
structure Segment where
  tagClass : String
  leftPercent : ℚ
  widthPercent : ℚ
  tooltip : String
deriving DecidableEq

/-- Minimum of a list of rationals, as `Math.min(...xs)` over a nonempty
spread (the empty case is unreachable in the guarded branch and gets a
dummy value). -/
def listMin : List ℚ → ℚ
  | [] => 0
  | [x] => x
  | x :: y :: t => min x (listMin (y :: t))

/-- Maximum of a list of rationals, as `Math.max(...xs)` over a nonempty
spread. -/
def listMax : List ℚ → ℚ
  | [] => 0
  | [x] => x
  | x :: y :: t => max x (listMax (y :: t))

namespace Part001

/-- The three visual states of the Timeline component of part 001:
lines 97-99 (no data), lines 101-104 (no OHCR sequences), and the
rendered track. -/
inductive TimelineView where
  | NoData
  | NoSequences
  | Rendered (segs : List Segment)
deriving DecidableEq

/-- Line 106 of part 001: `Math.min(...utterances.map(u => u.t_start || 0))`. -/
def minStart (us : List Utt) : ℚ := listMin (us.map fun u => numOr0 u.t_start)

/-- Line 107 of part 001: `Math.max(...utterances.map(u => u.t_end || 0))`. -/
def maxEnd (us : List Utt) : ℚ := listMax (us.map fun u => numOr0 u.t_end)

/-- Line 108 of part 001: `Math.max(1, end - start)`. -/
def durationOf (us : List Utt) : ℚ := max 1 (maxEnd us - minStart us)

/-- Line 125 of part 001: `tag && tag !== "?" ? tag : "unknown"`; a falsy
(empty) tag or the unknown code select the grey bucket class, any other
tag is used verbatim as the class suffix. -/
def tagClassOf (tag : String) : String :=
  if tag ≠ "" ∧ tag ≠ "?" then tag else "unknown"

/-- One iteration of the segment map, part 001 lines 121-134.  The width,
offset and tooltip use the raw `t_start` and `t_end` fields; when either
field is absent the tooltip expression `u.t_start.toFixed(1)` (or
`u.t_end.toFixed(1)`) is a method call on undefined and throws, modelled
as `Except.error`. -/
def mkSegment (start duration : ℚ) (u : Utt) : Except Unit Segment :=
  match u.t_start, u.t_end with
  | some ts, some te =>
    let width := ((te - ts) / duration) * 100
    let offset := ((ts - start) / duration) * 100
    let tag := jsCode u.ohcr
    Except.ok
      { tagClass := tagClassOf tag
      , leftPercent := offset
      , widthPercent := max width 0.8
      , tooltip := jsToUpper tag ++ " • " ++ toFixed1 ts ++ "s – " ++ toFixed1 te ++ "s" }
  | _, _ => Except.error ()

/-- The segment map over the whole utterance list, failing at the first
record whose timestamp access throws. -/
def segsOf (start duration : ℚ) : List Utt → Except Unit (List Segment)
  | [] => Except.ok []
  | u :: rest =>
    match mkSegment start duration u with
    | Except.error e => Except.error e
    | Except.ok s =>
      match segsOf start duration rest with
      | Except.error e => Except.error e
      | Except.ok ss => Except.ok (s :: ss)

/-- The Timeline component of part 001, lines 96-135: empty input gives
the NoData state; input in which no record carries an `ohcr` key
(`utterances.some(u => "ohcr" in u)` is false) gives the NoSequences
state; otherwise the session bounds and duration are computed and the
segments are emitted in input order. -/
def layout (utterances : List Utt) : Except Unit TimelineView :=
  if utterances.length = 0 then Except.ok TimelineView.NoData
  else if ! utterances.any (fun u => u.ohcr.isSome) then Except.ok TimelineView.NoSequences
  else
    (segsOf (minStart utterances) (durationOf utterances) utterances).map TimelineView.Rendered

/-- The raw aggregate metrics record consumed by the Dashboard
(`data.metrics`). -/
structure SessionMetrics where
  kc_score : ℚ
  ohcr_index : ℚ
  avg_hc_depth : ℚ
  student_talk_pct : ℚ
  level5_pct : ℚ
  max_hc_depth : ℚ
deriving DecidableEq

/-- A display value is a string or a number, as the `value` field of the
`Metric` type of part 001. -/
abbrev MetricValue := String ⊕ ℚ

/-- The `metrics` array of part 001 lines 36-43: the six (label, value)
pairs in source order. -/
def metricsList (m : SessionMetrics) : List (String × MetricValue) :=
  [ ("KC Score", Sum.inl (toFixed1 (m.kc_score * 100) ++ "%"))
  , ("OHCR Coverage", Sum.inl (toFixed1 (m.ohcr_index * 100) ++ "%"))
  , ("Avg HC-Depth", Sum.inr m.avg_hc_depth)
  , ("Student Talk", Sum.inl (toFixed0 (m.student_talk_pct * 100) ++ "%"))
  , ("Level-5 Presence", Sum.inl (toFixed0 (m.level5_pct * 100) ++ "%"))
  , ("Max HC-Depth", Sum.inr m.max_hc_depth) ]

/-- Result of the body parse of one fetch response: `r.json()` either
rejects (malformed body) or yields parsed JSON whose `utterances` field
is present or absent. -/
inductive BodyResult where
  | malformed
  | json (utts : Option (List Utt))
deriving DecidableEq

/-- Outcome of one fetch of `GET {API_BASE}/results/{sessionId}`: the
fetch promise either rejects (transport error) or resolves with a
response carrying its HTTP ok flag and the result of parsing its body.
A non-OK status still resolves the fetch promise, and whether its body
parses and carries `utterances` is independent of the flag. -/
inductive FetchOutcome where
  | transportError
  | response (ok : Bool) (body : BodyResult)
deriving DecidableEq

/-- The `.then` chain of part 001 lines 20-26 without the `.catch`: the
code never reads `r.ok` or `r.status`, so the ok flag of the response
is ignored; a parsed body yields `j.utterances || []`, the two
rejection paths propagate the error. -/
def thenChain : FetchOutcome → Except Unit (List Utt)
  | FetchOutcome.transportError => Except.error ()
  | FetchOutcome.response _ BodyResult.malformed => Except.error ()
  | FetchOutcome.response _ (BodyResult.json us) => Except.ok (us.getD [])

/-- The full handler including the `.catch` of part 001 lines 27-29: any
rejection is recovered as the empty sequence. -/
def handleResponse (o : FetchOutcome) : List Utt :=
  match thenChain o with
  | Except.ok us => us
  | Except.error _ => []

/-- The failure taxonomy of claim C2 and spec section 7, stated from the
claim rather than the source, for comparison with the handler: a
transport error, a non-OK status, a malformed body, or a body lacking
the `utterances` field. -/
def claimFailure : FetchOutcome → Bool
  | FetchOutcome.transportError => true
  | FetchOutcome.response _ BodyResult.malformed => true
  | FetchOutcome.response _ (BodyResult.json none) => true
  | FetchOutcome.response ok (BodyResult.json (some _)) => !ok

/-- The outcomes part 001 actually recovers as the empty sequence: the
two rejection paths and a parsed body without an `utterances` field;
the HTTP status plays no part. -/
def commitsEmpty : FetchOutcome → Bool
  | FetchOutcome.transportError => true
  | FetchOutcome.response _ BodyResult.malformed => true
  | FetchOutcome.response _ (BodyResult.json none) => true
  | FetchOutcome.response _ (BodyResult.json (some _)) => false

/-- State of the Dashboard fetch lifecycle: the committed utterance
state, the generation number of the current effect instance, the
generations whose cleanup has run (their `ignore` flag is true), and the
requests issued so far as (generation, sessionId) pairs. -/
structure EffectState where
  utterances : List Utt
  curGen : ℕ
  cancelled : List ℕ
  pending : List (ℕ × String)

/-- Events of the fetch lifecycle: the `sessionId` dependency of the
effect changes (part 001 line 34), or the fetch issued by effect
instance `gen` settles with `outcome`. -/
inductive Event where
  | changeSession (sid : String)
  | respond (gen : ℕ) (outcome : FetchOutcome)

/-- One transition of the fetch lifecycle of part 001 lines 13-34.
On a sessionId change React first runs the cleanup of the previous
effect instance (lines 31-33: its `ignore` flag becomes true), then runs
the new instance: a falsy sessionId resolves immediately with the empty
sequence and issues no request (lines 14-17), otherwise a request is
issued (line 20).  When a request settles, its handler commits
`handleResponse` unless the `ignore` flag of its own instance was set
(the guards on lines 23 and 28). -/
def step (s : EffectState) : Event → EffectState
  | Event.changeSession sid =>
    let cleaned : EffectState := { s with cancelled := s.curGen :: s.cancelled }
    let g := s.curGen + 1
    if sid = "" then
      { cleaned with curGen := g, utterances := [] }
    else
      { cleaned with curGen := g, pending := (g, sid) :: cleaned.pending }
  | Event.respond g o =>
    if g ∈ s.cancelled then s
    else { s with utterances := handleResponse o }

/-- A sequence of lifecycle events applied in order. -/
def run (s : EffectState) (es : List Event) : EffectState := es.foldl step s

/-- The degenerate single-instant utterance of the spec boundary case:
`{t_start:5, t_end:5, ohcr:"O"}`. -/
def uO55 : Utt := { t_start := some 5, t_end := some 5, ohcr := some "O" }

/-- The segment part 001 derives from `uO55`: duration floor and width
floor both engaged. -/
def segO55 : Segment :=
  { tagClass := "O", leftPercent := 0, widthPercent := 0.8, tooltip := "O • 5.0s – 5.0s" }

/-- An utterance with the malformed discourse code `"X"`. -/
def uX01 : Utt := { t_start := some 0, t_end := some 1, ohcr := some "X" }

/-- An utterance with no `ohcr` key at all. -/
def uN12 : Utt := { t_start := some 1, t_end := some 2 }

/-- The segment part 001 derives from `uX01` in the session `[uX01, uN12]`:
the class suffix is the malformed code itself, not the unknown bucket. -/
def segX01 : Segment :=
  { tagClass := "X", leftPercent := 0, widthPercent := 50, tooltip := "X • 0.0s – 1.0s" }

/-- The segment part 001 derives from `uN12` in the session `[uX01, uN12]`:
an absent `ohcr` key falls back to the unknown bucket. -/
def segN12 : Segment :=
  { tagClass := "unknown", leftPercent := 50, widthPercent := 50, tooltip := "? • 1.0s – 2.0s" }

/-- An utterance whose `ohcr` key is present but holds a falsy value. -/
def uE01 : Utt := { t_start := some 0, t_end := some 1, ohcr := some "" }

/-- An ohcr-bearing record with both timestamps absent: the input on
which the tooltip computation of part 001 line 132 throws. -/
def uBug : Utt := { ohcr := some "O" }

end Part001

namespace Part000

/-- The color lookup of part 000 line 68: an object lookup over the five
known tags with `|| "#9ca3af"` supplying the grey default for any other
tag (every hex string in the table is truthy, so the default fires
exactly on a missed lookup). -/
def color (tag : String) : String :=
  if tag = "O" then "#2563eb"
  else if tag = "H" then "#10b981"
  else if tag = "C" then "#f59e0b"
  else if tag = "R" then "#ef4444"
  else if tag = "?" then "#9ca3af"
  else "#9ca3af"

end Part000

open Part001

/-! ## Helper lemmas -/

theorem strAppend_assoc (a b c : String) : a ++ b ++ c = a ++ (b ++ c) := by
  cases a with
  | mk la =>
    cases b with
    | mk lb =>
      cases c with
      | mk lc =>
        show String.mk (la ++ lb ++ lc) = String.mk (la ++ (lb ++ lc))
        rw [List.append_assoc]

theorem repr_digit_length : ∀ d : ℕ, d < 10 → (toString d).length = 1 := by decide

theorem toFixed1_eval (q : ℚ) (n : ℤ) (hq : ¬ q < 0) (h : round (q * 10) = n) :
    toFixed1 q = toString (n.toNat / 10) ++ "." ++ toString (n.toNat % 10) := by
  rw [toFixed1, if_neg hq]
  show toString ((round (q * 10)).toNat / 10) ++ "." ++ toString ((round (q * 10)).toNat % 10) = _
  rw [h]

theorem toFixed0_eval (q : ℚ) (n : ℤ) (hq : ¬ q < 0) (h : round q = n) :
    toFixed0 q = toString n.toNat := by
  rw [toFixed0, if_neg hq]
  show toString (round q).toNat = _
  rw [h]

theorem toFixed1_oneDecimal (q : ℚ) :
    ∃ (a : String) (d : ℕ), d < 10 ∧ toFixed1 q = a ++ "." ++ toString d ∧
      (toString d).length = 1 := by
  by_cases hq : q < 0
  · refine ⟨"-" ++ toString ((round (-q * 10)).toNat / 10), (round (-q * 10)).toNat % 10,
      Nat.mod_lt _ (by norm_num), ?_, repr_digit_length _ (Nat.mod_lt _ (by norm_num))⟩
    rw [toFixed1, if_pos hq]
    show "-" ++ (toString ((round (-q * 10)).toNat / 10) ++ "." ++
      toString ((round (-q * 10)).toNat % 10)) = _
    simp only [strAppend_assoc]
  · refine ⟨toString ((round (q * 10)).toNat / 10), (round (q * 10)).toNat % 10,
      Nat.mod_lt _ (by norm_num), ?_, repr_digit_length _ (Nat.mod_lt _ (by norm_num))⟩
    rw [toFixed1, if_neg hq]
    rfl

theorem mkSegment_eval (st du : ℚ) (u : Utt) (ts te : ℚ)
    (hts : u.t_start = some ts) (hte : u.t_end = some te) :
    mkSegment st du u = Except.ok
      { tagClass := tagClassOf (jsCode u.ohcr)
      , leftPercent := ((ts - st) / du) * 100
      , widthPercent := max (((te - ts) / du) * 100) 0.8
      , tooltip := jsToUpper (jsCode u.ohcr) ++ " • " ++ toFixed1 ts ++ "s – "
          ++ toFixed1 te ++ "s" } := by
  simp only [mkSegment, hts, hte]

theorem mkSegment_ok_elim {st du : ℚ} {u : Utt} {sg : Segment} {ts te : ℚ}
    (h : mkSegment st du u = Except.ok sg)
    (hts : u.t_start = some ts) (hte : u.t_end = some te) :
    sg = { tagClass := tagClassOf (jsCode u.ohcr)
         , leftPercent := ((ts - st) / du) * 100
         , widthPercent := max (((te - ts) / du) * 100) 0.8
         , tooltip := jsToUpper (jsCode u.ohcr) ++ " • " ++ toFixed1 ts ++ "s – "
             ++ toFixed1 te ++ "s" } := by
  rw [mkSegment_eval st du u ts te hts hte] at h
  injection h with h
  exact h.symm

theorem mkSegment_ok_isSome {st du : ℚ} {u : Utt} {sg : Segment}
    (h : mkSegment st du u = Except.ok sg) :
    u.t_start.isSome = true ∧ u.t_end.isSome = true := by
  rw [mkSegment] at h
  cases hts : u.t_start with
  | none => rw [hts] at h; cases h
  | some ts =>
    cases hte : u.t_end with
    | none => rw [hts, hte] at h; cases h
    | some te => simp

theorem segsOf_forall₂ {st du : ℚ} : ∀ {us : List Utt} {segs : List Segment},
    segsOf st du us = Except.ok segs →
    List.Forall₂ (fun u sg => mkSegment st du u = Except.ok sg) us segs := by
  intro us
  induction us with
  | nil =>
    intro segs h
    rw [segsOf] at h
    injection h with h
    rw [← h]
    exact List.Forall₂.nil
  | cons u rest ih =>
    intro segs h
    rw [segsOf] at h
    cases hm : mkSegment st du u with
    | error e => rw [hm] at h; cases h
    | ok s =>
      rw [hm] at h
      cases hr : segsOf st du rest with
      | error e => rw [hr] at h; cases h
      | ok ss =>
        rw [hr] at h
        injection h with h
        rw [← h]
        exact List.Forall₂.cons hm (ih hr)

theorem segsOf_ok_of_fields (st du : ℚ) : ∀ {us : List Utt},
    (∀ u ∈ us, u.t_start.isSome = true ∧ u.t_end.isSome = true) →
    ∃ segs, segsOf st du us = Except.ok segs := by
  intro us
  induction us with
  | nil => intro _; exact ⟨[], rfl⟩
  | cons u rest ih =>
    intro hf
    obtain ⟨hts, hte⟩ := hf u (List.mem_cons_self u rest)
    obtain ⟨ts, hts⟩ := Option.isSome_iff_exists.mp hts
    obtain ⟨te, hte⟩ := Option.isSome_iff_exists.mp hte
    obtain ⟨segs, hsegs⟩ := ih (fun v hv => hf v (List.mem_cons_of_mem u hv))
    cases hm : mkSegment st du u with
    | error e => rw [mkSegment_eval st du u ts te hts hte] at hm; cases hm
    | ok sg => exact ⟨sg :: segs, by rw [segsOf, hm, hsegs]⟩

theorem layout_rendered {us : List Utt} {segs : List Segment}
    (h : layout us = Except.ok (TimelineView.Rendered segs)) :
    segsOf (minStart us) (durationOf us) us = Except.ok segs := by
  rw [layout] at h
  split_ifs at h with h1 h2
  · cases h
  · cases h
  · cases hs : segsOf (minStart us) (durationOf us) us with
    | error e => rw [hs] at h; cases h
    | ok ss =>
      rw [hs] at h
      injection h with h
      injection h with h
      rw [h]

theorem layout_uO55 : layout [uO55] = Except.ok (TimelineView.Rendered [segO55]) := by
  have hst : minStart [uO55] = 5 := by simp [minStart, listMin, numOr0, uO55]
  have hen : maxEnd [uO55] = 5 := by simp [maxEnd, listMax, numOr0, uO55]
  have hdu : durationOf [uO55] = 1 := by rw [durationOf, hst, hen]; norm_num
  have htf : toFixed1 (5 : ℚ) = "5.0" := by
    rw [toFixed1_eval 5 50 (by norm_num) (by norm_num [round_eq])]
    rfl
  have hmk : mkSegment 5 1 uO55 = Except.ok segO55 := by
    rw [mkSegment_eval 5 1 uO55 5 5 rfl rfl]
    simp only [uO55, jsCode, htf, segO55, Except.ok.injEq, Segment.mk.injEq]
    refine ⟨by decide, by norm_num, by norm_num, by decide⟩
  rw [layout, if_neg (by decide), if_neg (by decide), hst, hdu]
  simp [segsOf, hmk, Except.map]

theorem forall₂_mem_right {R : Utt → Segment → Prop} :
    ∀ {us : List Utt} {segs : List Segment}, List.Forall₂ R us segs →
      ∀ sg ∈ segs, ∃ u ∈ us, R u sg := by
  intro us segs h
  induction h with
  | nil => intro sg hsg; cases hsg
  | cons hm hrest ih =>
    intro sg hsg
    cases List.mem_cons.mp hsg with
    | inl he => exact ⟨_, List.mem_cons_self _ _, he ▸ hm⟩
    | inr ht =>
      obtain ⟨u, hu, hr⟩ := ih sg ht
      exact ⟨u, List.mem_cons_of_mem _ hu, hr⟩

/-! ## Claims about the timeline layout -/

/-- Claim C4: for every utterance sequence (of well-formed records
carrying both timestamps), layout returns exactly one of three states in
order with first match winning: empty gives NoData, non-empty with no
`ohcr` key anywhere gives NoSequences, everything else renders
segments. -/
theorem claimC4 (us : List Utt)
    (hts : ∀ u ∈ us, u.t_start.isSome = true ∧ u.t_end.isSome = true) :
    (us = [] → layout us = Except.ok TimelineView.NoData)
    ∧ (us ≠ [] → (∀ u ∈ us, u.ohcr = none) →
        layout us = Except.ok TimelineView.NoSequences)
    ∧ (us ≠ [] → (∃ u ∈ us, u.ohcr.isSome = true) →
        ∃ segs, layout us = Except.ok (TimelineView.Rendered segs)) := by
  refine ⟨?_, ?_, ?_⟩
  · intro h
    subst h
    rfl
  · intro hne hnone
    have h2 : us.any (fun u => u.ohcr.isSome) = false := by
      simp only [List.any_eq_false]
      intro u hu
      simp [hnone u hu]
    rw [layout, if_neg (by simp only [List.length_eq_zero]; exact hne), if_pos (by simp [h2])]
  · intro hne hsome
    have h2 : us.any (fun u => u.ohcr.isSome) = true := by
      simp only [List.any_eq_true]
      exact hsome
    obtain ⟨segs, hsegs⟩ := segsOf_ok_of_fields (minStart us) (durationOf us) hts
    refine ⟨segs, ?_⟩
    rw [layout, if_neg (by simp only [List.length_eq_zero]; exact hne),
      if_neg (by simp [h2]), hsegs]
    rfl

/-- Witness for C4 at the degenerate single-instant ohcr-bearing
record. -/
theorem claimC4_witness :
    (([uO55] : List Utt) = [] → layout [uO55] = Except.ok TimelineView.NoData)
    ∧ (([uO55] : List Utt) ≠ [] → (∀ u ∈ [uO55], u.ohcr = none) →
        layout [uO55] = Except.ok TimelineView.NoSequences)
    ∧ (([uO55] : List Utt) ≠ [] → (∃ u ∈ [uO55], u.ohcr.isSome = true) →
        ∃ segs, layout [uO55] = Except.ok (TimelineView.Rendered segs)) :=
  claimC4 [uO55] (by decide)

/-- Claim C5: in the Rendered state every segment satisfies the width
formula with the 0.8 floor and the left offset formula, relative to the
session bounds and the duration floor, and consequently has width at
least 0.8. -/
theorem claimC5 (us : List Utt) (segs : List Segment)
    (h : layout us = Except.ok (TimelineView.Rendered segs)) :
    List.Forall₂ (fun u sg =>
      ∀ ts te : ℚ, u.t_start = some ts → u.t_end = some te →
        sg.widthPercent = max (((te - ts) / durationOf us) * 100) 0.8
        ∧ sg.leftPercent = ((ts - minStart us) / durationOf us) * 100
        ∧ (0.8 : ℚ) ≤ sg.widthPercent) us segs := by
  refine (segsOf_forall₂ (layout_rendered h)).imp ?_
  intro u sg hm ts te hts hte
  rw [mkSegment_ok_elim hm hts hte]
  exact ⟨rfl, rfl, le_max_right _ _⟩

/-- Witness for C5 at the degenerate single-instant session, where the
duration floor and the width floor are both engaged. -/
theorem claimC5_witness :
    List.Forall₂ (fun u sg =>
      ∀ ts te : ℚ, u.t_start = some ts → u.t_end = some te →
        sg.widthPercent = max (((te - ts) / durationOf [uO55]) * 100) 0.8
        ∧ sg.leftPercent = ((ts - minStart [uO55]) / durationOf [uO55]) * 100
        ∧ (0.8 : ℚ) ≤ sg.widthPercent) [uO55] [segO55] :=
  claimC5 [uO55] [segO55] layout_uO55

/-- Claim C8: in the Rendered state every tooltip is the uppercased code
followed by the start and end times, each rendered by toFixed(1), which
always produces exactly one digit after the decimal point. -/
theorem claimC8 (us : List Utt) (segs : List Segment)
    (h : layout us = Except.ok (TimelineView.Rendered segs)) :
    List.Forall₂ (fun u sg =>
      ∀ ts te : ℚ, u.t_start = some ts → u.t_end = some te →
        sg.tooltip = jsToUpper (jsCode u.ohcr) ++ " • " ++ toFixed1 ts ++ "s – "
            ++ toFixed1 te ++ "s"
        ∧ (∃ a d, d < 10 ∧ toFixed1 ts = a ++ "." ++ toString d ∧ (toString d).length = 1)
        ∧ (∃ a d, d < 10 ∧ toFixed1 te = a ++ "." ++ toString d ∧
            (toString d).length = 1)) us segs := by
  refine (segsOf_forall₂ (layout_rendered h)).imp ?_
  intro u sg hm ts te hts hte
  refine ⟨?_, toFixed1_oneDecimal ts, toFixed1_oneDecimal te⟩
  rw [mkSegment_ok_elim hm hts hte]

/-- Witness for C8 at the degenerate single-instant session. -/
theorem claimC8_witness :
    List.Forall₂ (fun u sg =>
      ∀ ts te : ℚ, u.t_start = some ts → u.t_end = some te →
        sg.tooltip = jsToUpper (jsCode u.ohcr) ++ " • " ++ toFixed1 ts ++ "s – "
            ++ toFixed1 te ++ "s"
        ∧ (∃ a d, d < 10 ∧ toFixed1 ts = a ++ "." ++ toString d ∧ (toString d).length = 1)
        ∧ (∃ a d, d < 10 ∧ toFixed1 te = a ++ "." ++ toString d ∧
            (toString d).length = 1)) [uO55] [segO55] :=
  claimC8 [uO55] [segO55] layout_uO55

/-- Claim C9 (code bug): on an ohcr-bearing record with both timestamps
absent, the layout does not resolve to a visual state: the tooltip
expression `u.t_start.toFixed(1)` is a method call on undefined and
throws, modelled as the error outcome. -/
theorem claimC9_layoutThrows : layout [uBug] = Except.error () := by
  simp [layout, segsOf, mkSegment, uBug, Except.map]

/-- Claim C10: records whose `ohcr` key is present but falsy count as
ohcr-bearing for the state selection (key membership), so the sequence
reaches the Rendered state, yet each segment falls back to the grey
unknown class and the `?` code in its tooltip (truthiness). -/
theorem claimC10 (us : List Utt) (hne : us ≠ [])
    (hf : ∀ u ∈ us, u.ohcr = some "" ∧ u.t_start.isSome = true ∧ u.t_end.isSome = true) :
    ∃ segs, layout us = Except.ok (TimelineView.Rendered segs)
      ∧ segs.length = us.length
      ∧ ∀ sg ∈ segs, sg.tagClass = "unknown"
        ∧ ∃ a b : String, sg.tooltip = "? • " ++ a ++ "s – " ++ b ++ "s" := by
  have h2 : us.any (fun u => u.ohcr.isSome) = true := by
    simp only [List.any_eq_true]
    cases us with
    | nil => exact absurd rfl hne
    | cons u rest =>
      refine ⟨u, List.mem_cons_self u rest, ?_⟩
      rw [(hf u (List.mem_cons_self u rest)).1]
      rfl
  obtain ⟨segs, hsegs⟩ :=
    segsOf_ok_of_fields (minStart us) (durationOf us) (fun u hu => (hf u hu).2)
  have hl : layout us = Except.ok (TimelineView.Rendered segs) := by
    rw [layout, if_neg (by simp only [List.length_eq_zero]; exact hne),
      if_neg (by simp [h2]), hsegs]
    rfl
  have hfa := segsOf_forall₂ hsegs
  refine ⟨segs, hl, hfa.length_eq.symm, ?_⟩
  intro sg hsg
  obtain ⟨u, hu, hm⟩ := forall₂_mem_right hfa sg hsg
  obtain ⟨he, hts, hte⟩ := hf u hu
  obtain ⟨ts, hts⟩ := Option.isSome_iff_exists.mp hts
  obtain ⟨te, hte⟩ := Option.isSome_iff_exists.mp hte
  rw [mkSegment_ok_elim hm hts hte, he]
  exact ⟨rfl, toFixed1 ts, toFixed1 te, rfl⟩

/-- Witness for C10 at a single record with a present falsy `ohcr`. -/
theorem claimC10_witness :
    ∃ segs, layout [uE01] = Except.ok (TimelineView.Rendered segs)
      ∧ segs.length = ([uE01] : List Utt).length
      ∧ ∀ sg ∈ segs, sg.tagClass = "unknown"
        ∧ ∃ a b : String, sg.tooltip = "? • " ++ a ++ "s – " ++ b ++ "s" :=
  claimC10 [uE01] (by decide) (by decide)

theorem layout_uXN :
    layout [uX01, uN12] = Except.ok (TimelineView.Rendered [segX01, segN12]) := by
  have hst : minStart [uX01, uN12] = 0 := by
    simp [minStart, listMin, numOr0, uX01, uN12]
  have hen : maxEnd [uX01, uN12] = 2 := by
    simp [maxEnd, listMax, numOr0, uX01, uN12]
  have hdu : durationOf [uX01, uN12] = 2 := by
    rw [durationOf, hst, hen]
    norm_num
  have htf0 : toFixed1 (0 : ℚ) = "0.0" := by
    rw [toFixed1_eval 0 0 (by norm_num) (by norm_num [round_eq])]
    rfl
  have htf1 : toFixed1 (1 : ℚ) = "1.0" := by
    rw [toFixed1_eval 1 10 (by norm_num) (by norm_num [round_eq])]
    rfl
  have htf2 : toFixed1 (2 : ℚ) = "2.0" := by
    rw [toFixed1_eval 2 20 (by norm_num) (by norm_num [round_eq])]
    rfl
  have hmk1 : mkSegment 0 2 uX01 = Except.ok segX01 := by
    rw [mkSegment_eval 0 2 uX01 0 1 rfl rfl]
    simp only [uX01, jsCode, htf0, htf1, segX01, Except.ok.injEq, Segment.mk.injEq]
    refine ⟨by decide, by norm_num, by norm_num, by decide⟩
  have hmk2 : mkSegment 0 2 uN12 = Except.ok segN12 := by
    rw [mkSegment_eval 0 2 uN12 1 2 rfl rfl]
    simp only [uN12, jsCode, htf1, htf2, segN12, Except.ok.injEq, Segment.mk.injEq]
    refine ⟨by decide, by norm_num, by norm_num, by decide⟩
  rw [layout, if_neg (by decide), if_neg (by decide), hst, hdu]
  simp [segsOf, hmk1, hmk2, Except.map]

/-- Counterexample to claim C6: in part 001, the segment of an utterance
with the malformed code `"X"` is classed `"X"`, not the grey unknown
bucket, and so is classed differently from an utterance with `ohcr`
absent (classed `"unknown"`) in the same session. -/
theorem claimC6_counterexample :
    layout [uX01, uN12] = Except.ok (TimelineView.Rendered [segX01, segN12])
    ∧ segX01.tagClass = "X" ∧ segN12.tagClass = "unknown"
    ∧ segX01.tagClass ≠ segN12.tagClass :=
  ⟨layout_uXN, rfl, rfl, by decide⟩

/-- Claim C6 as amended: the part 000 color lookup is total and resolves
grey for every code outside the four known tags, but the part 001 class
mapping sends a truthy code other than `"?"` to a class named after the
code itself; only a falsy code or `"?"` (hence an absent or falsy `ohcr`)
is classed as the grey unknown bucket. -/
theorem claimC6_amended (tag : String)
    (hO : tag ≠ "O") (hH : tag ≠ "H") (hC : tag ≠ "C") (hR : tag ≠ "R") :
    Part000.color tag = "#9ca3af"
    ∧ (tag ≠ "" → tag ≠ "?" → tagClassOf tag = tag)
    ∧ (tag = "" ∨ tag = "?" → tagClassOf tag = "unknown") := by
  refine ⟨?_, ?_, ?_⟩
  · rw [Part000.color, if_neg hO, if_neg hH, if_neg hC, if_neg hR, ite_self]
  · intro h1 h2
    rw [tagClassOf, if_pos ⟨h1, h2⟩]
  · intro h
    cases h with
    | inl h => subst h; rfl
    | inr h => subst h; rfl

/-- Witness for the amended C6 at the malformed code `"X"`. -/
theorem claimC6_amended_witness :
    Part000.color "X" = "#9ca3af" ∧ tagClassOf "X" = "X" :=
  ⟨(claimC6_amended "X" (by decide) (by decide) (by decide) (by decide)).1,
   (claimC6_amended "X" (by decide) (by decide) (by decide) (by decide)).2.1
     (by decide) (by decide)⟩

/-! ## Claim about the metrics formatting -/

/-- Claim C7: the metrics array always has the six labels in fixed
order, with KC Score and OHCR Coverage as the ratio times 100 to one
decimal place with a percent suffix, Student Talk and Level-5 Presence
to zero decimal places with a percent suffix, and the two HC-Depth
values passed through raw; evaluated at the spec example record it gives
exactly the expected six pairs. -/
theorem claimC7 :
    (∀ m : SessionMetrics, metricsList m =
      [ ("KC Score", Sum.inl (toFixed1 (m.kc_score * 100) ++ "%"))
      , ("OHCR Coverage", Sum.inl (toFixed1 (m.ohcr_index * 100) ++ "%"))
      , ("Avg HC-Depth", Sum.inr m.avg_hc_depth)
      , ("Student Talk", Sum.inl (toFixed0 (m.student_talk_pct * 100) ++ "%"))
      , ("Level-5 Presence", Sum.inl (toFixed0 (m.level5_pct * 100) ++ "%"))
      , ("Max HC-Depth", Sum.inr m.max_hc_depth) ])
    ∧ metricsList
        { kc_score := 0.873, ohcr_index := 0.5, avg_hc_depth := 2,
          student_talk_pct := 0.667, level5_pct := 0.1, max_hc_depth := 5 } =
      [ ("KC Score", Sum.inl "87.3%"), ("OHCR Coverage", Sum.inl "50.0%")
      , ("Avg HC-Depth", Sum.inr 2), ("Student Talk", Sum.inl "67%")
      , ("Level-5 Presence", Sum.inl "10%"), ("Max HC-Depth", Sum.inr 5) ] := by
  constructor
  · intro m
    rfl
  · have h1 : toFixed1 ((0.873 : ℚ) * 100) = "87.3" := by
      rw [toFixed1_eval _ 873 (by norm_num) (by norm_num [round_eq])]
      rfl
    have h2 : toFixed1 ((0.5 : ℚ) * 100) = "50.0" := by
      rw [toFixed1_eval _ 500 (by norm_num) (by norm_num [round_eq])]
      rfl
    have h3 : toFixed0 ((0.667 : ℚ) * 100) = "67" := by
      rw [toFixed0_eval _ 67 (by norm_num) (by norm_num [round_eq])]
      rfl
    have h4 : toFixed0 ((0.1 : ℚ) * 100) = "10" := by
      rw [toFixed0_eval _ 10 (by norm_num) (by norm_num [round_eq])]
      rfl
    simp only [metricsList, h1, h2, h3, h4]
    rfl

/-! ## Claims about the fetch lifecycle -/

/-- Claim C3: a falsy sessionId resolves immediately with the empty
sequence committed to state and issues no request. -/
theorem claimC3 (s : EffectState) :
    (step s (Event.changeSession "")).utterances = []
    ∧ (step s (Event.changeSession "")).pending = s.pending := by
  constructor <;> simp [step]

/-- Counterexample to claim C2: the code never checks `r.ok`, so a
non-OK response whose body parses and carries an `utterances` field is
a failure in the claim's taxonomy yet is handled — and committed by a
non-stale resolution — as that data, not as the empty sequence. -/
theorem claimC2_counterexample :
    claimFailure (FetchOutcome.response false (BodyResult.json (some [uO55]))) = true
    ∧ handleResponse (FetchOutcome.response false (BodyResult.json (some [uO55]))) = [uO55]
    ∧ [uO55] ≠ ([] : List Utt)
    ∧ (step { utterances := [], curGen := 1, cancelled := [], pending := [(1, "A")] }
        (Event.respond 1
          (FetchOutcome.response false (BodyResult.json (some [uO55]))))).utterances
      = [uO55] :=
  ⟨rfl, rfl, List.cons_ne_nil _ _, rfl⟩

/-- Claim C2 as amended: every outcome the handler can observe as a
failure — a transport error, a malformed body, or a parsed body lacking
the `utterances` field, whatever the HTTP status — is handled as the
empty sequence and a non-stale resolution commits that empty sequence
to state; the handler is total, so no error reaches the rendering
layer; and the HTTP ok flag is never read, so it never affects the
handled value (which is why a non-OK response with an
`utterances`-bearing body is committed as data rather than as empty). -/
theorem claimC2 (o : FetchOutcome) (hf : commitsEmpty o = true) :
    handleResponse o = []
    ∧ (∀ (s : EffectState) (g : ℕ), g ∉ s.cancelled →
        (step s (Event.respond g o)).utterances = [])
    ∧ ∀ (b1 b2 : Bool) (body : BodyResult),
        handleResponse (FetchOutcome.response b1 body) =
          handleResponse (FetchOutcome.response b2 body) := by
  have he : handleResponse o = [] := by
    cases o with
    | transportError => rfl
    | response ok body =>
      cases body with
      | malformed => rfl
      | json us =>
        cases us with
        | none => rfl
        | some l => cases hf
  refine ⟨he, ?_, ?_⟩
  · intro s g hg
    simp [step, hg, he]
  · intro b1 b2 body
    cases body <;> rfl

/-- Witness for the amended C2: a non-OK response whose parsed body
lacks the `utterances` field, arriving for a non-cancelled request,
commits the empty sequence; and the handled value of an
`utterances`-bearing body does not depend on the ok flag. -/
theorem claimC2_witness :
    handleResponse (FetchOutcome.response false (BodyResult.json none)) = []
    ∧ (step { utterances := [uO55], curGen := 1, cancelled := [], pending := [(1, "A")] }
        (Event.respond 1 (FetchOutcome.response false (BodyResult.json none)))).utterances = []
    ∧ handleResponse (FetchOutcome.response false (BodyResult.json (some [uO55]))) =
        handleResponse (FetchOutcome.response true (BodyResult.json (some [uO55]))) :=
  ⟨(claimC2 (FetchOutcome.response false (BodyResult.json none)) rfl).1,
   (claimC2 (FetchOutcome.response false (BodyResult.json none)) rfl).2.1
     { utterances := [uO55], curGen := 1, cancelled := [], pending := [(1, "A")] } 1
     (by decide),
   (claimC2 (FetchOutcome.response false (BodyResult.json none)) rfl).2.2
     false true (BodyResult.json (some [uO55]))⟩

/-- Claim C1: when a retrieval is issued for session A and the sessionId
changes to B before the response for A arrives, the late response for A
is never committed (the cleanup has set the ignore flag of the A
instance), so the final state reflects only the data of B — whichever
order the two responses arrive in — or is empty when B is falsy. -/
theorem claimC1 (s : EffectState) (A B : String) (oA oB : FetchOutcome)
    (hA : A ≠ "") (hfresh : ∀ c ∈ s.cancelled, c ≤ s.curGen) :
    ((run s [Event.changeSession A, Event.changeSession B,
        Event.respond (s.curGen + 1) oA]).utterances
      = (run s [Event.changeSession A, Event.changeSession B]).utterances)
    ∧ (B ≠ "" →
        (run s [Event.changeSession A, Event.changeSession B,
            Event.respond (s.curGen + 1) oA,
            Event.respond (s.curGen + 2) oB]).utterances = handleResponse oB
        ∧ (run s [Event.changeSession A, Event.changeSession B,
            Event.respond (s.curGen + 2) oB,
            Event.respond (s.curGen + 1) oA]).utterances = handleResponse oB)
    ∧ (B = "" →
        (run s [Event.changeSession A, Event.changeSession B,
            Event.respond (s.curGen + 1) oA]).utterances = []) := by
  have hmemA : s.curGen + 1 ∈ (s.curGen + 1) :: s.curGen :: s.cancelled :=
    List.mem_cons_self _ _
  have hmemB : s.curGen + 2 ∉ (s.curGen + 1) :: s.curGen :: s.cancelled := by
    intro hc
    rcases List.mem_cons.mp hc with h | hc
    · omega
    rcases List.mem_cons.mp hc with h | hc
    · omega
    · exact absurd (hfresh _ hc) (by omega)
  by_cases hB : B = ""
  · subst hB
    refine ⟨?_, fun h => absurd rfl h, fun _ => ?_⟩
    · simp [run, step, hA, hmemA]
    · simp [run, step, hA, hmemA]
  · refine ⟨?_, fun _ => ⟨?_, ?_⟩, fun h => absurd h hB⟩
    · simp [run, step, hA, hB, hmemA]
    · simp [run, step, hA, hB, hmemA, hmemB]
    · simp [run, step, hA, hB, hmemA, hmemB]

/-- Witness for C1: sessions "A" then "B" from the initial state, with
the response for A carrying data and the response for B carrying a body
without an `utterances` field. -/
theorem claimC1_witness :
    ((run { utterances := [], curGen := 0, cancelled := [], pending := [] }
        [Event.changeSession "A", Event.changeSession "B",
         Event.respond 1 (FetchOutcome.response true (BodyResult.json (some [uO55])))]).utterances
      = (run { utterances := [], curGen := 0, cancelled := [], pending := [] }
          [Event.changeSession "A", Event.changeSession "B"]).utterances)
    ∧ (("B" : String) ≠ "" →
        (run { utterances := [], curGen := 0, cancelled := [], pending := [] }
            [Event.changeSession "A", Event.changeSession "B",
             Event.respond 1 (FetchOutcome.response true (BodyResult.json (some [uO55]))),
             Event.respond 2 (FetchOutcome.response true (BodyResult.json none))]).utterances
          = handleResponse (FetchOutcome.response true (BodyResult.json none))
        ∧ (run { utterances := [], curGen := 0, cancelled := [], pending := [] }
            [Event.changeSession "A", Event.changeSession "B",
             Event.respond 2 (FetchOutcome.response true (BodyResult.json none)),
             Event.respond 1
               (FetchOutcome.response true (BodyResult.json (some [uO55])))]).utterances
          = handleResponse (FetchOutcome.response true (BodyResult.json none)))
    ∧ (("B" : String) = "" →
        (run { utterances := [], curGen := 0, cancelled := [], pending := [] }
            [Event.changeSession "A", Event.changeSession "B",
             Event.respond 1
               (FetchOutcome.response true (BodyResult.json (some [uO55])))]).utterances = []) :=
  claimC1 { utterances := [], curGen := 0, cancelled := [], pending := [] }
    "A" "B" (FetchOutcome.response true (BodyResult.json (some [uO55])))
    (FetchOutcome.response true (BodyResult.json none))
    (by decide) (by intro c hc; cases hc)

end OhcrCoach
